import Mathlib

/-!
Verification of the RasterSource abstraction of this repository.

The repository ships the test suite for the raster-access layer
(`tests_v2/core/data/raster_source/test_rasterio_source.py`) together with a
generated protobuf schema; the RasterioSource implementation itself is not in
the tree, so the definitions below are modelled from the specification
(`spec.md`, sections 3, 4.1, 4.2 and 7), with the shipped tests pinning the
observable behaviour where they are explicit.  Machine values are `Nat`/`Int`;
chips are total functions from (row, col, channel) to the stored value.
-/

namespace RasterVision

/-- A chip: a function from row, column and output-channel index to the
numeric value stored at that position. -/
abbrev ChipFun := Nat → Nat → Nat → Nat

/-- Modelled from the spec: the data exposed by an opened raster dataset —
dimensions, raw band values, declared nodata value, per-dataset validity
mask, per-band alpha color-interpretation flags, and the georeferencing
information (affine north-up geotransform origin/resolution, CRS authority
code when one is recognized).  `pixel b r c` is the raw value of band `b`
at row `r`, column `c`. -/
structure RasterData where
  height : Nat
  width : Nat
  count : Nat
  pixel : Nat → Nat → Nat → Nat
  nodata : Option Nat
  datasetMask : Nat → Nat → Bool
  isAlpha : Nat → Bool
  hasGeo : Bool
  crsAuthority : Option Nat
  originX : Int
  originY : Int
  resX : Int
  resY : Int

/-- Modelled from the spec: the declarative configuration for a
RasterioSource — optional explicit channel order, x/y shift in map units,
and an attached transformer chain. -/
structure RasterioSourceConfig where
  channel_order : Option (List Nat)
  x_shift : Int
  y_shift : Int
  transformers : List (ChipFun → ChipFun)

/-- Configuration errors raised eagerly at build time. -/
inductive BuildError where
  | channelOrderError
deriving DecidableEq

/-- Modelled from the spec: when no explicit channel order is given, the
default order is all raw bands in their original order with any band marked
alpha by the color-interpretation metadata dropped. -/
def defaultChannelOrder (rd : RasterData) : List Nat :=
  (List.range rd.count).filter (fun b => !rd.isAlpha b)

/-- Modelled from the spec: an explicit channel order is validated eagerly —
every index must be below the raw channel count, otherwise building fails
with a channel-order configuration error; with no explicit order the
alpha-dropping default is used. -/
def resolveChannelOrder (co : Option (List Nat)) (rd : RasterData) :
    Except BuildError (List Nat) :=
  match co with
  | some l =>
      if l.all (fun i => i < rd.count) then Except.ok l
      else Except.error BuildError.channelOrderError
  | none => Except.ok (defaultChannelOrder rd)

/-- Modelled from the spec: a built Raster Source owns the raster data, the
resolved channel order, the configured shifts and the transformer chain. -/
structure RasterioSource where
  raster : RasterData
  channel_order : List Nat
  x_shift : Int
  y_shift : Int
  transformers : List (ChipFun → ChipFun)

/-- Modelled from the spec: `build` turns a configuration into a ready
Raster Source, raising configuration errors (invalid channel order) eagerly,
before any read is attempted. -/
def RasterioSourceConfig.build (cfg : RasterioSourceConfig) (rd : RasterData) :
    Except BuildError RasterioSource :=
  match resolveChannelOrder cfg.channel_order rd with
  | Except.ok co =>
      Except.ok (RasterioSource.mk rd co cfg.x_shift cfg.y_shift cfg.transformers)
  | Except.error e => Except.error e

/-- An axis-aligned pixel window: rows `[ymin, ymax)`, columns `[xmin, xmax)`. -/
structure Box where
  ymin : Int
  xmin : Int
  ymax : Int
  xmax : Int
deriving DecidableEq

/-- The full pixel extent of the raster. -/
def RasterioSource.get_extent (src : RasterioSource) : Box :=
  Box.mk 0 0 ((src.raster.height : Int)) ((src.raster.width : Int))

/-- A CRS transformer: pure pixel-to-map and map-to-pixel coordinate maps.
Points are `(x, y)` pairs. -/
structure CRSTransformer where
  pixel_to_map : Int × Int → Int × Int
  map_to_pixel : Int × Int → Int × Int

/-- The identity CRS transformer used for non-georeferenced rasters. -/
def identityCRSTransformer : CRSTransformer :=
  CRSTransformer.mk id id

/-- Modelled from the spec: the CRS transformer of a raster applies the
north-up affine geotransform (origin and per-axis resolution) when the
raster is georeferenced, and degenerates to the identity function for
rasters with no geotransform/CRS. -/
def RasterData.crsTransformer (rd : RasterData) : CRSTransformer :=
  if rd.hasGeo then
    CRSTransformer.mk
      (fun p => Prod.mk (rd.originX + p.1 * rd.resX) (rd.originY - p.2 * rd.resY))
      (fun p => Prod.mk ((p.1 - rd.originX) / rd.resX) ((rd.originY - p.2) / rd.resY))
  else identityCRSTransformer

/-- The CRS transformer associated with a Raster Source. -/
def RasterioSource.get_crs_transformer (src : RasterioSource) : CRSTransformer :=
  src.raster.crsTransformer

/-- Modelled from the spec: a configured x/y shift in map units translates
the read window by converting the window origin to map coordinates, adding
the shift, and converting back to pixel coordinates via the CRS
transformer; the window keeps its size.  With no shift the window is
unchanged. -/
def RasterioSource.shiftWindow (src : RasterioSource) (w : Box) : Box :=
  if src.x_shift = 0 ∧ src.y_shift = 0 then w
  else
    let t := src.raster.crsTransformer
    let m := t.pixel_to_map (Prod.mk w.xmin w.ymin)
    let p2 := t.map_to_pixel (Prod.mk (m.1 + src.x_shift) (m.2 + src.y_shift))
    Box.mk p2.2 p2.1 (p2.2 + (w.ymax - w.ymin)) (p2.1 + (w.xmax - w.xmin))

/-- Modelled from the spec: a raw band read at a source pixel coordinate;
pixels that fall outside the raster are filled with zero. -/
def rawPixel (rd : RasterData) (b : Nat) (r c : Int) : Nat :=
  if 0 ≤ r ∧ r < (rd.height : Int) ∧ 0 ≤ c ∧ c < (rd.width : Int) then
    rd.pixel b r.toNat c.toNat
  else 0

/-- Modelled from the spec: a source pixel is masked out when any raw band
holds the declared nodata value there, or the per-dataset validity mask is
false there.  Out-of-raster pixels are zero-filled anyway and carry no
mask. -/
def pixelMaskedOut (rd : RasterData) (r c : Int) : Bool :=
  if 0 ≤ r ∧ r < (rd.height : Int) ∧ 0 ≤ c ∧ c < (rd.width : Int) then
    (match rd.nodata with
      | some v => (List.range rd.count).any (fun b => rd.pixel b r.toNat c.toNat == v)
      | none => false) || !(rd.datasetMask r.toNat c.toNat)
  else false

/-- The transformer chain applied strictly in attachment order. -/
def applyChain (ts : List (ChipFun → ChipFun)) (f : ChipFun) : ChipFun :=
  ts.foldl (fun g t => t g) f

/-- Modelled from the spec: the windowed read before the transformer chain —
raw band values at the (already shifted) window, bands selected and
permuted through the resolved channel order, masked pixels zeroed across
all output channels. -/
def readWindow (rd : RasterData) (co : List Nat) (sw : Box) : ChipFun :=
  fun r c i =>
    if pixelMaskedOut rd (sw.ymin + (r : Int)) (sw.xmin + (c : Int)) then 0
    else rawPixel rd (co.getD i 0) (sw.ymin + (r : Int)) (sw.xmin + (c : Int))

/-- Modelled from the spec: `get_chip` — shift the window, read raw bands
with zero fill, apply the channel order, zero masked pixels, then run the
transformer chain. -/
def RasterioSource.get_chip (src : RasterioSource) (w : Box) : ChipFun :=
  applyChain src.transformers
    (readWindow src.raster src.channel_order (src.shiftWindow w))

/-- `get_image_array` is `get_chip` at the full extent. -/
def RasterioSource.get_image_array (src : RasterioSource) : ChipFun :=
  src.get_chip src.get_extent

/-- Modelled from the spec and the shipped test (`test_gets_raw_chip`): the
raw image array holds raw band values over the full (shifted) extent,
before the transformer chain; its channel dimension is the raw band count
(the test asserts shape `3` for a 3-band raster even under channel order
`[0, 1]`). -/
def RasterioSource.get_raw_image_array (src : RasterioSource) : ChipFun :=
  fun r c b =>
    rawPixel src.raster b
      ((src.shiftWindow src.get_extent).ymin + (r : Int))
      ((src.shiftWindow src.get_extent).xmin + (c : Int))

/-- Modelled from the spec's shape clause `[rows, cols, raw_channel_count]`
and the shipped test: the channel dimension of the raw image array. -/
def RasterioSource.raw_image_channel_count (src : RasterioSource) : Nat :=
  src.raster.count

/-! Helper lemmas about the build step. -/

theorem build_ok_fields {cfg : RasterioSourceConfig} {rd : RasterData}
    {src : RasterioSource} (hb : cfg.build rd = Except.ok src) :
    src.raster = rd ∧ src.x_shift = cfg.x_shift ∧ src.y_shift = cfg.y_shift ∧
      src.transformers = cfg.transformers := by
  unfold RasterioSourceConfig.build at hb
  cases h : resolveChannelOrder cfg.channel_order rd with
  | ok co =>
      rw [h] at hb
      cases hb
      exact ⟨rfl, rfl, rfl, rfl⟩
  | error e =>
      rw [h] at hb
      cases hb

theorem build_ok_channel_order {cfg : RasterioSourceConfig} {rd : RasterData}
    {src : RasterioSource} (hb : cfg.build rd = Except.ok src) :
    resolveChannelOrder cfg.channel_order rd = Except.ok src.channel_order := by
  unfold RasterioSourceConfig.build at hb
  cases h : resolveChannelOrder cfg.channel_order rd with
  | ok co =>
      rw [h] at hb
      cases hb
      rfl
  | error e =>
      rw [h] at hb
      cases hb

theorem build_ok_channel_order_lt {cfg : RasterioSourceConfig} {rd : RasterData}
    {src : RasterioSource} (hb : cfg.build rd = Except.ok src)
    {b : Nat} (hmem : b ∈ src.channel_order) : b < rd.count := by
  have h := build_ok_channel_order hb
  cases hco : cfg.channel_order with
  | some l =>
      rw [hco] at h
      simp only [resolveChannelOrder] at h
      by_cases hall : (l.all fun i => decide (i < rd.count)) = true
      · rw [if_pos hall] at h
        injection h with h2
        rw [← h2] at hmem
        rw [List.all_eq_true] at hall
        simpa using hall b hmem
      · rw [if_neg hall] at h
        cases h
  | none =>
      rw [hco] at h
      simp only [resolveChannelOrder] at h
      injection h with h2
      rw [← h2] at hmem
      unfold defaultChannelOrder at hmem
      have hr := List.mem_filter.mp hmem
      simpa using List.mem_range.mp hr.1

theorem build_ok_default_order {cfg : RasterioSourceConfig} {rd : RasterData}
    {src : RasterioSource} (hb : cfg.build rd = Except.ok src)
    (hco : cfg.channel_order = none) :
    src.channel_order = defaultChannelOrder rd := by
  have h := build_ok_channel_order hb
  rw [hco] at h
  simp only [resolveChannelOrder] at h
  injection h with h2
  exact h2.symm

/-- With no configured shift the read window is unchanged. -/
theorem shiftWindow_zero {src : RasterioSource} (hx : src.x_shift = 0)
    (hy : src.y_shift = 0) (w : Box) : src.shiftWindow w = w := by
  unfold RasterioSource.shiftWindow
  rw [if_pos ⟨hx, hy⟩]

/-- With an empty transformer chain, `get_chip` is the masked windowed read. -/
theorem get_chip_eq_readWindow (src : RasterioSource)
    (htr : src.transformers = []) (w : Box) :
    src.get_chip w = readWindow src.raster src.channel_order (src.shiftWindow w) := by
  unfold RasterioSource.get_chip
  rw [htr]
  rfl

/-- With an empty transformer chain, `get_image_array` is the masked read at
the full extent. -/
theorem get_image_array_eq_readWindow (src : RasterioSource)
    (htr : src.transformers = []) :
    src.get_image_array =
      readWindow src.raster src.channel_order (src.shiftWindow src.get_extent) := by
  unfold RasterioSource.get_image_array
  exact get_chip_eq_readWindow src htr _

/-- Pixel-level description of `get_image_array` for an unshifted source with
no transformers. -/
theorem get_image_array_no_shift_pixel (src : RasterioSource)
    (hx : src.x_shift = 0) (hy : src.y_shift = 0) (htr : src.transformers = [])
    (r c i : Nat) :
    src.get_image_array r c i =
      if pixelMaskedOut src.raster (r : Int) (c : Int) then 0
      else rawPixel src.raster (src.channel_order.getD i 0) (r : Int) (c : Int) := by
  rw [get_image_array_eq_readWindow src htr, shiftWindow_zero hx hy]
  unfold readWindow RasterioSource.get_extent
  simp

/-- A pixel holding the declared nodata value in some raw band is masked out. -/
theorem pixelMaskedOut_nodata {rd : RasterData} {v : Nat} (hv : rd.nodata = some v)
    {r c : Nat} (hr : r < rd.height) (hc : c < rd.width)
    (hbad : ∃ b, b < rd.count ∧ rd.pixel b r c = v) :
    pixelMaskedOut rd (r : Int) (c : Int) = true := by
  unfold pixelMaskedOut
  have hin : 0 ≤ (r : Int) ∧ (r : Int) < (rd.height : Int) ∧
      0 ≤ (c : Int) ∧ (c : Int) < (rd.width : Int) := by omega
  rw [if_pos hin, hv]
  obtain ⟨b, hb, hpix⟩ := hbad
  have hany : (List.range rd.count).any
      (fun b => rd.pixel b (r : Int).toNat (c : Int).toNat == v) = true := by
    rw [List.any_eq_true]
    exact ⟨b, List.mem_range.mpr hb, by simp [hpix]⟩
  simp only [Bool.or_eq_true, List.any_eq_true, List.mem_range, beq_iff_eq,
    Bool.not_eq_true]
  exact Or.inl ⟨b, hb, by simpa using hpix⟩

/-- An in-bounds pixel whose dataset-mask entry is false is masked out. -/
theorem pixelMaskedOut_of_mask_false {rd : RasterData} {r c : Int}
    (hmask : ∀ a, a < rd.height → ∀ b, b < rd.width → rd.datasetMask a b = false)
    (hin : 0 ≤ r ∧ r < (rd.height : Int) ∧ 0 ≤ c ∧ c < (rd.width : Int)) :
    pixelMaskedOut rd r c = true := by
  unfold pixelMaskedOut
  rw [if_pos hin]
  rw [hmask r.toNat (by omega) c.toNat (by omega)]
  simp

/-- With no declared nodata value and an all-true dataset mask no pixel is
masked out. -/
theorem pixelMaskedOut_false_of_valid {rd : RasterData} (hnod : rd.nodata = none)
    (hmask : ∀ a, a < rd.height → ∀ b, b < rd.width → rd.datasetMask a b = true)
    (r c : Int) : pixelMaskedOut rd r c = false := by
  unfold pixelMaskedOut
  by_cases hin : 0 ≤ r ∧ r < (rd.height : Int) ∧ 0 ≤ c ∧ c < (rd.width : Int)
  · rw [if_pos hin, hnod]
    rw [hmask r.toNat (by omega) c.toNat (by omega)]
    rfl
  · rw [if_neg hin]

/-- An element read with `getD` inside the list bounds is a member. -/
theorem getD_mem_of_lt {l : List Nat} {i : Nat} (hi : i < l.length) :
    l.getD i 0 ∈ l := by
  rw [List.getD_eq_getElem l 0 hi]
  exact List.getElem_mem hi

/-- Splitting a list by a predicate preserves total length. -/
theorem length_filter_add (p : Nat → Bool) (l : List Nat) :
    (l.filter p).length + (l.filter (fun b => !p b)).length = l.length := by
  induction l with
  | nil => simp
  | cons x xs ih =>
      cases h : p x with
      | true =>
          simp only [List.filter_cons, h, Bool.not_true, List.length_cons]
          simp only [if_pos trivial, List.length_cons]
          simp
          omega
      | false =>
          simp only [List.filter_cons, h, Bool.not_false]
          simp
          omega

/-! Claim theorems. -/

/-- Claim C1: for a raster with a declared nodata value `v` (unshifted, no
transformers attached), every pixel holding `v` in some raw band reads back
as zero in all output channels of `get_image_array`; in particular, when all
raw values are zeros and ones and `v = 1`, the whole output array is zero. -/
theorem C1_nodata_zeroes_pixels (cfg : RasterioSourceConfig) (rd : RasterData)
    (src : RasterioSource) (hb : cfg.build rd = Except.ok src)
    (v : Nat) (hv : rd.nodata = some v)
    (htr : cfg.transformers = []) (hx : cfg.x_shift = 0) (hy : cfg.y_shift = 0) :
    (∀ r c i, r < rd.height → c < rd.width →
        (∃ b, b < rd.count ∧ rd.pixel b r c = v) → src.get_image_array r c i = 0) ∧
      ((∀ b, b < rd.count → ∀ r, r < rd.height → ∀ c, c < rd.width → rd.pixel b r c ≤ 1) →
        v = 1 → ∀ r c i, r < rd.height → c < rd.width → i < src.channel_order.length →
          src.get_image_array r c i = 0) := by
  obtain ⟨hraster, hxs, hys, hts⟩ := build_ok_fields hb
  rw [htr] at hts
  rw [hx] at hxs
  rw [hy] at hys
  have hpix : ∀ r c i : Nat, src.get_image_array r c i =
      if pixelMaskedOut rd (r : Int) (c : Int) then 0
      else rawPixel rd (src.channel_order.getD i 0) (r : Int) (c : Int) := by
    intro r c i
    rw [get_image_array_no_shift_pixel src hxs hys hts, hraster]
  constructor
  · intro r c i hr hc hbad
    rw [hpix, pixelMaskedOut_nodata hv hr hc hbad]
    rfl
  · intro hle hv1 r c i hr hc hi
    by_cases hbad : ∃ b, b < rd.count ∧ rd.pixel b r c = v
    · rw [hpix, pixelMaskedOut_nodata hv hr hc hbad]
      rfl
    · rw [hpix]
      by_cases hm : pixelMaskedOut rd (r : Int) (c : Int) = true
      · rw [if_pos hm]
      · rw [if_neg hm]
        unfold rawPixel
        have hin : 0 ≤ (r : Int) ∧ (r : Int) < (rd.height : Int) ∧
            0 ≤ (c : Int) ∧ (c : Int) < (rd.width : Int) := by omega
        rw [if_pos hin]
        have hband : src.channel_order.getD i 0 < rd.count :=
          build_ok_channel_order_lt hb (getD_mem_of_lt hi)
        have h1 : (r : Int).toNat = r := by omega
        have h2 : (c : Int).toNat = c := by omega
        rw [h1, h2]
        have hle2 := hle _ hband r hr c hc
        have hne : rd.pixel (src.channel_order.getD i 0) r c ≠ v := by
          intro hcontra
          exact hbad ⟨src.channel_order.getD i 0, hband, hcontra⟩
        omega

/-- Claim C3: with no explicit channel order and exactly one band marked
alpha, the resolved channel order is the list of non-alpha bands in their
original order, its length is the raw channel count minus one, and (for an
unshifted, untransformed, unmasked raster) `get_image_array` reads back the
raw values of exactly those bands. -/
theorem C3_alpha_band_dropped (cfg : RasterioSourceConfig) (rd : RasterData)
    (src : RasterioSource) (hb : cfg.build rd = Except.ok src)
    (hco : cfg.channel_order = none) (a : Nat)
    (ha : (List.range rd.count).filter (fun b => rd.isAlpha b) = [a])
    (hnod : rd.nodata = none)
    (hmask : ∀ r, r < rd.height → ∀ c, c < rd.width → rd.datasetMask r c = true)
    (htr : cfg.transformers = []) (hx : cfg.x_shift = 0) (hy : cfg.y_shift = 0) :
    src.channel_order = (List.range rd.count).filter (fun b => !rd.isAlpha b) ∧
      src.channel_order.length = rd.count - 1 ∧
      ∀ r c i, r < rd.height → c < rd.width →
        src.get_image_array r c i = rd.pixel (src.channel_order.getD i 0) r c := by
  obtain ⟨hraster, hxs, hys, hts⟩ := build_ok_fields hb
  rw [htr] at hts
  rw [hx] at hxs
  rw [hy] at hys
  have hord : src.channel_order = (List.range rd.count).filter (fun b => !rd.isAlpha b) := by
    rw [build_ok_default_order hb hco]
    rfl
  refine ⟨hord, ?_, ?_⟩
  · have hsplit := length_filter_add (fun b => rd.isAlpha b) (List.range rd.count)
    rw [ha] at hsplit
    rw [hord]
    simp only [List.length_range, List.length_singleton] at hsplit
    omega
  · intro r c i hr hc
    rw [get_image_array_no_shift_pixel src hxs hys hts, hraster]
    rw [pixelMaskedOut_false_of_valid hnod hmask]
    unfold rawPixel
    have hin : 0 ≤ (r : Int) ∧ (r : Int) < (rd.height : Int) ∧
        0 ≤ (c : Int) ∧ (c : Int) < (rd.width : Int) := by omega
    rw [if_neg (by simp), if_pos hin]
    have h1 : (r : Int).toNat = r := by omega
    have h2 : (c : Int).toNat = c := by omega
    rw [h1, h2]

/-- Claim C8: when the per-dataset validity mask is false everywhere, every
pixel of `get_image_array` is zero across all output channels (any shift
configuration; no transformers attached). -/
theorem C8_mask_all_false (cfg : RasterioSourceConfig) (rd : RasterData)
    (src : RasterioSource) (hb : cfg.build rd = Except.ok src)
    (hmask : ∀ r, r < rd.height → ∀ c, c < rd.width → rd.datasetMask r c = false)
    (htr : cfg.transformers = []) (r c i : Nat) :
    src.get_image_array r c i = 0 := by
  obtain ⟨hraster, hxs, hys, hts⟩ := build_ok_fields hb
  rw [htr] at hts
  rw [get_image_array_eq_readWindow src hts]
  unfold readWindow
  rw [hraster]
  by_cases hm : pixelMaskedOut rd
      ((src.shiftWindow src.get_extent).ymin + (r : Int))
      ((src.shiftWindow src.get_extent).xmin + (c : Int)) = true
  · rw [if_pos hm]
  · rw [if_neg hm]
    unfold rawPixel
    by_cases hin : 0 ≤ (src.shiftWindow src.get_extent).ymin + (r : Int) ∧
        (src.shiftWindow src.get_extent).ymin + (r : Int) < (rd.height : Int) ∧
        0 ≤ (src.shiftWindow src.get_extent).xmin + (c : Int) ∧
        (src.shiftWindow src.get_extent).xmin + (c : Int) < (rd.width : Int)
    · exact absurd (pixelMaskedOut_of_mask_false hmask hin) hm
    · rw [if_neg hin]

/-- Claim C9: an unshifted windowed read whose window lies entirely outside
the raster's pixel extent returns zero at every position of the requested
window shape (no transformers attached); no error is possible since reads
are total. -/
theorem C9_outside_window_zero_fill (cfg : RasterioSourceConfig) (rd : RasterData)
    (src : RasterioSource) (hb : cfg.build rd = Except.ok src)
    (htr : cfg.transformers = []) (hx : cfg.x_shift = 0) (hy : cfg.y_shift = 0)
    (w : Box)
    (hout : w.ymax ≤ 0 ∨ (rd.height : Int) ≤ w.ymin ∨
      w.xmax ≤ 0 ∨ (rd.width : Int) ≤ w.xmin)
    (r c i : Nat) (hr : r < (w.ymax - w.ymin).toNat) (hc : c < (w.xmax - w.xmin).toNat) :
    src.get_chip w r c i = 0 := by
  obtain ⟨hraster, hxs, hys, hts⟩ := build_ok_fields hb
  rw [htr] at hts
  rw [hx] at hxs
  rw [hy] at hys
  rw [get_chip_eq_readWindow src hts, shiftWindow_zero hxs hys, hraster]
  unfold readWindow
  have hnotin : ¬(0 ≤ w.ymin + (r : Int) ∧ w.ymin + (r : Int) < (rd.height : Int) ∧
      0 ≤ w.xmin + (c : Int) ∧ w.xmin + (c : Int) < (rd.width : Int)) := by omega
  have hmf : pixelMaskedOut rd (w.ymin + (r : Int)) (w.xmin + (c : Int)) = false := by
    unfold pixelMaskedOut
    rw [if_neg hnotin]
  rw [hmf]
  unfold rawPixel
  rw [if_neg hnotin]
  rfl

/-- Claim C2: building a Raster Source whose explicit channel order contains
an index at or above the raw channel count fails with the channel-order
configuration error at build time, before any read is attempted. -/
theorem C2_channel_order_error (cfg : RasterioSourceConfig) (rd : RasterData)
    (co : List Nat) (hco : cfg.channel_order = some co)
    (i : Nat) (hi : i ∈ co) (hbig : rd.count ≤ i) :
    cfg.build rd = Except.error BuildError.channelOrderError := by
  unfold RasterioSourceConfig.build resolveChannelOrder
  rw [hco]
  have hall : ¬ (co.all (fun i => i < rd.count) = true) := by
    rw [List.all_eq_true]
    intro h
    have := h i hi
    simp at this
    omega
  simp only [hall, Bool.false_eq_true, if_false, if_neg hall]

/-- Claim C4: for a non-georeferenced raster the associated CRS transformer
is the identity in both directions, hence both round trips are the
identity as well. -/
theorem C4_non_geo_identity (src : RasterioSource)
    (hgeo : src.raster.hasGeo = false) (p : Int × Int) :
    src.get_crs_transformer.map_to_pixel p = p ∧
      src.get_crs_transformer.pixel_to_map p = p ∧
      src.get_crs_transformer.map_to_pixel (src.get_crs_transformer.pixel_to_map p) = p ∧
      src.get_crs_transformer.pixel_to_map (src.get_crs_transformer.map_to_pixel p) = p := by
  unfold RasterioSource.get_crs_transformer RasterData.crsTransformer
  rw [hgeo]
  exact ⟨rfl, rfl, rfl, rfl⟩

/-- Claim C7: a raster whose CRS parses but exposes no registry/authority
code builds successfully (with the default channel order); reads in this
model are total functions, so no read can fail either. -/
theorem C7_no_authority_code_builds (cfg : RasterioSourceConfig)
    (rd : RasterData) (hgeo : rd.hasGeo = true)
    (hauth : rd.crsAuthority = none) (hco : cfg.channel_order = none) :
    ∃ src, cfg.build rd = Except.ok src := by
  refine ⟨RasterioSource.mk rd (defaultChannelOrder rd) cfg.x_shift cfg.y_shift
    cfg.transformers, ?_⟩
  unfold RasterioSourceConfig.build resolveChannelOrder
  rw [hco]

/-! The shift claims, on a model of the `ones.tif` test asset. -/

/-- The test asset `ones.tif`: a 256 by 256 all-ones single-band raster,
georeferenced with one-meter-per-pixel resolution in both directions. -/
def onesRaster : RasterData :=
  RasterData.mk 256 256 1 (fun _ _ _ => 1) none (fun _ _ => true) (fun _ => false)
    true (some 26918) 0 256 1 1

/-- Configuration of `test_shift_x`: channel order `[0]`, `x_shift = 1.0`. -/
def shiftXConfig : RasterioSourceConfig :=
  RasterioSourceConfig.mk (some [0]) 1 0 []

/-- The source built from `shiftXConfig` on `onesRaster`. -/
def shiftXSource : RasterioSource :=
  RasterioSource.mk onesRaster [0] 1 0 []

/-- Configuration of `test_shift_y`: channel order `[0]`, `y_shift = 1.0`. -/
def shiftYConfig : RasterioSourceConfig :=
  RasterioSourceConfig.mk (some [0]) 0 1 []

/-- The source built from `shiftYConfig` on `onesRaster`. -/
def shiftYSource : RasterioSource :=
  RasterioSource.mk onesRaster [0] 0 1 []

/-- The total value sum of a chip of the given shape. -/
def chipSum (f : ChipFun) (h w ch : Nat) : Nat :=
  ∑ r ∈ Finset.range h, ∑ c ∈ Finset.range w, ∑ b ∈ Finset.range ch, f r c b

/-- `onesRaster` declares no nodata value and carries an all-true mask. -/
theorem onesRaster_not_masked (r c : Int) :
    pixelMaskedOut onesRaster r c = false :=
  pixelMaskedOut_false_of_valid rfl (fun _ _ _ _ => rfl) r c

/-- The +1 map-unit x shift moves the read window one pixel to the right. -/
theorem shiftX_window :
    shiftXSource.shiftWindow shiftXSource.get_extent = Box.mk 0 1 256 257 := by
  decide

/-- The +1 map-unit y shift moves the read window one pixel up. -/
theorem shiftY_window :
    shiftYSource.shiftWindow shiftYSource.get_extent = Box.mk (-1) 0 255 256 := by
  decide

/-- Pixel values of the x-shifted read: all ones except the vacated last
column. -/
theorem shiftX_pixel (r c : Nat) (hr : r < 256) :
    shiftXSource.get_image_array r c 0 = if c < 255 then 1 else 0 := by
  rw [get_image_array_eq_readWindow shiftXSource rfl, shiftX_window]
  unfold readWindow
  simp only [shiftXSource]
  rw [onesRaster_not_masked]
  simp only [Bool.false_eq_true, if_false]
  unfold rawPixel onesRaster
  simp only [List.getD]
  split_ifs with h1 h2 h2 <;> first | rfl | (exfalso; revert h1; simp; omega)

/-- Pixel values of the y-shifted read: all ones except the vacated first
row. -/
theorem shiftY_pixel (r c : Nat) (hr : r < 256) (hc : c < 256) :
    shiftYSource.get_image_array r c 0 = if 1 ≤ r then 1 else 0 := by
  rw [get_image_array_eq_readWindow shiftYSource rfl, shiftY_window]
  unfold readWindow
  simp only [shiftYSource]
  rw [onesRaster_not_masked]
  simp only [Bool.false_eq_true, if_false]
  unfold rawPixel onesRaster
  simp only [List.getD]
  split_ifs with h1 h2 h2 <;> first | rfl | (exfalso; revert h1; simp; omega)

/-- Claim C6: building on the all-ones one-meter-per-pixel raster with
`x_shift = 1.0` and reading the full extent shifts the content by exactly
one pixel column — the vacated last column reads as zero and the total
pixel sum is `2 ^ 16 - 256`. -/
theorem C6_shift_x :
    shiftXConfig.build onesRaster = Except.ok shiftXSource ∧
      (∀ r, r < 256 → shiftXSource.get_image_array r 255 0 = 0) ∧
      chipSum shiftXSource.get_image_array 256 256 1 = 2 ^ 16 - 256 := by
  refine ⟨rfl, ?_, ?_⟩
  · intro r hr
    rw [shiftX_pixel r 255 hr]
    decide
  · unfold chipSum
    have hrow : ∀ r ∈ Finset.range 256,
        (∑ c ∈ Finset.range 256, ∑ b ∈ Finset.range 1,
          shiftXSource.get_image_array r c b) = 255 := by
      intro r hr
      rw [Finset.mem_range] at hr
      have hcol : ∀ c ∈ Finset.range 256,
          (∑ b ∈ Finset.range 1, shiftXSource.get_image_array r c b) =
            if c < 255 then 1 else 0 := by
        intro c _
        rw [Finset.sum_range_one, shiftX_pixel r c hr]
      rw [Finset.sum_congr rfl hcol, Finset.sum_range_succ]
      have hone : ∀ c ∈ Finset.range 255, (if c < 255 then (1 : Nat) else 0) = 1 := by
        intro c hc
        rw [Finset.mem_range] at hc
        rw [if_pos hc]
      rw [Finset.sum_congr rfl hone, Finset.sum_const, if_neg (by omega)]
      simp
    rw [Finset.sum_congr rfl hrow, Finset.sum_const]
    simp

/-- Claim C10: building on the all-ones one-meter-per-pixel raster with
`y_shift = 1.0` and reading the full extent shifts the content by exactly
one pixel row — the vacated first row reads as zero and the total pixel sum
is `2 ^ 16 - 256`. -/
theorem C10_shift_y :
    shiftYConfig.build onesRaster = Except.ok shiftYSource ∧
      (∀ c, c < 256 → shiftYSource.get_image_array 0 c 0 = 0) ∧
      chipSum shiftYSource.get_image_array 256 256 1 = 2 ^ 16 - 256 := by
  refine ⟨rfl, ?_, ?_⟩
  · intro c hc
    rw [shiftY_pixel 0 c (by omega) hc]
    decide
  · unfold chipSum
    have hrow : ∀ r ∈ Finset.range 256,
        (∑ c ∈ Finset.range 256, ∑ b ∈ Finset.range 1,
          shiftYSource.get_image_array r c b) = if 1 ≤ r then 256 else 0 := by
      intro r hr
      rw [Finset.mem_range] at hr
      have hcol : ∀ c ∈ Finset.range 256,
          (∑ b ∈ Finset.range 1, shiftYSource.get_image_array r c b) =
            if 1 ≤ r then 1 else 0 := by
        intro c hc
        rw [Finset.mem_range] at hc
        rw [Finset.sum_range_one, shiftY_pixel r c hr hc]
      rw [Finset.sum_congr rfl hcol, Finset.sum_const]
      by_cases h : 1 ≤ r
      · rw [if_pos h, if_pos h]
        simp
      · rw [if_neg h, if_neg h]
        simp
    rw [Finset.sum_congr rfl hrow, Finset.sum_range_succ']
    have hone : ∀ r ∈ Finset.range 255,
        (if 1 ≤ r + 1 then (256 : Nat) else 0) = 256 := by
      intro r hrm
      rw [Finset.mem_range] at hrm
      rw [if_pos (by omega)]
    rw [Finset.sum_congr rfl hone, Finset.sum_const, if_neg (by omega)]
    simp

/-! Claim C5: the raw image array and the channel order. -/

/-- A 2 by 2 three-band raster in which band `b` holds the constant value
`b`, standing for the 3-band tile of `test_gets_raw_chip`. -/
def rgbRaster : RasterData :=
  RasterData.mk 2 2 3 (fun b _ _ => b) none (fun _ _ => true) (fun _ => false)
    true (some 26918) 0 2 1 1

/-- Configuration of `test_gets_raw_chip`: channel order `[0, 1]`. -/
def rawChipConfig : RasterioSourceConfig :=
  RasterioSourceConfig.mk (some [0, 1]) 0 0 []

/-- The source built from `rawChipConfig` on `rgbRaster`. -/
def rawChipSource : RasterioSource :=
  RasterioSource.mk rgbRaster [0, 1] 0 0 []

/-- Claim C5 as stated is false: on the 3-band raster built with channel
order `[0, 1]`, the raw image array's channel dimension is the raw band
count 3 — exactly what `test_gets_raw_chip` asserts — and not the channel
order's length 2; channel index 2 still reads raw band 2, so channel
selection is not applied to the raw read. -/
theorem C5_raw_channel_claim_false :
    rawChipConfig.build rgbRaster = Except.ok rawChipSource ∧
      rawChipSource.channel_order.length = 2 ∧
      rawChipSource.raw_image_channel_count = 3 ∧
      rawChipSource.raw_image_channel_count ≠ rawChipSource.channel_order.length ∧
      rawChipSource.get_raw_image_array 0 0 2 = 2 := by
  refine ⟨rfl, rfl, rfl, by decide, by decide⟩

/-- Claim C5 (amended): `get_raw_image_array` returns the raw band values of
the full extent before both channel selection and the transformer chain —
its channel dimension is the raw band count, and it is unchanged under any
replacement of the resolved channel order or of the attached transformer
chain. -/
theorem C5_raw_image_before_channels_and_transformers
    (cfg : RasterioSourceConfig) (rd : RasterData) (src : RasterioSource)
    (hb : cfg.build rd = Except.ok src) :
    src.raw_image_channel_count = rd.count ∧
      ∀ (co2 : List Nat) (ts2 : List (ChipFun → ChipFun)) (r c b : Nat),
        (RasterioSource.mk rd co2 src.x_shift src.y_shift ts2).get_raw_image_array r c b
          = src.get_raw_image_array r c b := by
  obtain ⟨hraster, _, _, _⟩ := build_ok_fields hb
  constructor
  · unfold RasterioSource.raw_image_channel_count
    rw [hraster]
  · intro co2 ts2 r c b
    unfold RasterioSource.get_raw_image_array RasterioSource.shiftWindow
      RasterioSource.get_extent
    rw [hraster]

/-- Witness for the amended claim C5 at the 3-band test raster: the channel
dimension is 3 and neither a different channel order nor an attached
transformer changes the raw read. -/
theorem C5_raw_image_witness :
    rawChipConfig.build rgbRaster = Except.ok rawChipSource ∧
      rawChipSource.raw_image_channel_count = rgbRaster.count ∧
      (RasterioSource.mk rgbRaster [2] 0 0
          [fun f r c b => f r c b + 1]).get_raw_image_array 1 1 1
        = rawChipSource.get_raw_image_array 1 1 1 :=
  ⟨rfl,
    (C5_raw_image_before_channels_and_transformers rawChipConfig rgbRaster
      rawChipSource rfl).1,
    (C5_raw_image_before_channels_and_transformers rawChipConfig rgbRaster
      rawChipSource rfl).2 [2] [fun f r c b => f r c b + 1] 1 1 1⟩

/-! Concrete rasters for the remaining witnesses. -/

/-- A configuration with no explicit channel order, no shift and no
transformers. -/
def plainConfig : RasterioSourceConfig :=
  RasterioSourceConfig.mk none 0 0 []

/-- A 2 by 2 two-band raster of zeros and ones with declared nodata value 1:
band 0 holds 1 at pixel (0,0) and 0 elsewhere, band 1 is all zero. -/
def zeroOneRaster : RasterData :=
  RasterData.mk 2 2 2 (fun b r c => if b = 0 ∧ r = 0 ∧ c = 0 then 1 else 0)
    (some 1) (fun _ _ => true) (fun _ => false) true (some 26918) 0 2 1 1

/-- The source built from `plainConfig` on `zeroOneRaster`. -/
def zeroOneSource : RasterioSource :=
  RasterioSource.mk zeroOneRaster [0, 1] 0 0 []

/-- Witness for claim C1: on the zeros-and-ones raster with nodata 1, the
pixel holding a 1 in band 0 reads back as zero in both output channels. -/
theorem C1_nodata_witness :
    plainConfig.build zeroOneRaster = Except.ok zeroOneSource ∧
      zeroOneRaster.nodata = some 1 ∧
      (∃ b, b < zeroOneRaster.count ∧ zeroOneRaster.pixel b 0 0 = 1) ∧
      zeroOneSource.get_image_array 0 0 0 = 0 ∧
      zeroOneSource.get_image_array 0 0 1 = 0 := by
  refine ⟨rfl, rfl, ⟨0, by decide, by decide⟩, ?_, ?_⟩
  · exact (C1_nodata_zeroes_pixels plainConfig zeroOneRaster zeroOneSource rfl 1 rfl
      rfl rfl rfl).1 0 0 0 (by decide) (by decide) ⟨0, by decide, by decide⟩
  · exact (C1_nodata_zeroes_pixels plainConfig zeroOneRaster zeroOneSource rfl 1 rfl
      rfl rfl rfl).2 (by decide) rfl 0 0 1 (by decide) (by decide) (by decide)

/-- The 2 by 2 three-band image of `test_channel_order_error`. -/
def threeBandRaster : RasterData :=
  RasterData.mk 2 2 3 (fun b _ _ => b) none (fun _ _ => true) (fun _ => false)
    false none 0 2 1 1

/-- Witness for claim C2: channel order `[3, 1, 0]` on a 3-band raster fails
to build with the channel-order configuration error. -/
theorem C2_channel_order_witness :
    3 ∈ [3, 1, 0] ∧ threeBandRaster.count ≤ 3 ∧
      (RasterioSourceConfig.mk (some [3, 1, 0]) 0 0 []).build threeBandRaster =
        Except.error BuildError.channelOrderError :=
  ⟨by decide, by decide,
    C2_channel_order_error (RasterioSourceConfig.mk (some [3, 1, 0]) 0 0 [])
      threeBandRaster [3, 1, 0] rfl 3 (by decide) (by decide)⟩

/-- The 2 by 2 three-band image of `test_detects_alpha`: band 0 is marked
alpha, band `b` holds the constant `b`. -/
def alphaRaster : RasterData :=
  RasterData.mk 2 2 3 (fun b _ _ => b) none (fun _ _ => true) (fun b => b == 0)
    false none 0 2 1 1

/-- The source built from `plainConfig` on `alphaRaster`: the default
channel order drops the alpha band. -/
def alphaSource : RasterioSource :=
  RasterioSource.mk alphaRaster [1, 2] 0 0 []

/-- Witness for claim C3: with band 0 marked alpha and no explicit channel
order, the output has two channels reading bands 1 and 2. -/
theorem C3_alpha_witness :
    plainConfig.build alphaRaster = Except.ok alphaSource ∧
      (List.range alphaRaster.count).filter (fun b => alphaRaster.isAlpha b) = [0] ∧
      alphaSource.channel_order.length = alphaRaster.count - 1 ∧
      alphaSource.get_image_array 0 0 0 = 1 ∧
      alphaSource.get_image_array 0 0 1 = 2 := by
  have h := C3_alpha_band_dropped plainConfig alphaRaster alphaSource rfl rfl 0
    (by decide) rfl (by decide) rfl rfl rfl
  refine ⟨rfl, by decide, h.2.1, ?_, ?_⟩
  · rw [h.2.2 0 0 0 (by decide) (by decide)]
    decide
  · rw [h.2.2 0 0 1 (by decide) (by decide)]
    decide

/-- The non-georeferenced 2 by 2 image of `test_non_geo`. -/
def nonGeoRaster : RasterData :=
  RasterData.mk 2 2 3 (fun _ _ _ => 1) none (fun _ _ => true) (fun _ => false)
    false none 0 0 1 1

/-- The source built from `plainConfig` on `nonGeoRaster`. -/
def nonGeoSource : RasterioSource :=
  RasterioSource.mk nonGeoRaster [0, 1, 2] 0 0 []

/-- Witness for claim C4: at the point (3, 4) both directions of the CRS
transformer of a non-georeferenced image are the identity. -/
theorem C4_non_geo_witness :
    nonGeoSource.raster.hasGeo = false ∧
      nonGeoSource.get_crs_transformer.map_to_pixel (Prod.mk 3 4) = Prod.mk 3 4 ∧
      nonGeoSource.get_crs_transformer.pixel_to_map (Prod.mk 3 4) = Prod.mk 3 4 :=
  ⟨rfl, (C4_non_geo_identity nonGeoSource rfl (Prod.mk 3 4)).1,
    (C4_non_geo_identity nonGeoSource rfl (Prod.mk 3 4)).2.1⟩

/-- The raster of `test_no_epsg`: georeferenced, CRS present, but with no
recognized authority code. -/
def noAuthorityRaster : RasterData :=
  RasterData.mk 100 100 3 (fun _ _ _ => 0) none (fun _ _ => true) (fun _ => false)
    true none 0 100 1 1

/-- Witness for claim C7: the no-authority-code raster builds successfully. -/
theorem C7_no_authority_witness :
    noAuthorityRaster.hasGeo = true ∧ noAuthorityRaster.crsAuthority = none ∧
      ∃ src, plainConfig.build noAuthorityRaster = Except.ok src :=
  ⟨rfl, rfl, C7_no_authority_code_builds plainConfig noAuthorityRaster rfl rfl rfl⟩

/-- The all-masked raster of `test_mask`: 2 by 2, three bands of ones, the
per-dataset validity mask false everywhere. -/
def maskedRaster : RasterData :=
  RasterData.mk 2 2 3 (fun _ _ _ => 1) none (fun _ _ => false) (fun _ => false)
    true (some 26918) 0 2 1 1

/-- The source built from `plainConfig` on `maskedRaster`. -/
def maskedSource : RasterioSource :=
  RasterioSource.mk maskedRaster [0, 1, 2] 0 0 []

/-- Witness for claim C8: the all-false mask zeroes the read. -/
theorem C8_mask_witness :
    plainConfig.build maskedRaster = Except.ok maskedSource ∧
      (∀ r, r < maskedRaster.height → ∀ c, c < maskedRaster.width →
        maskedRaster.datasetMask r c = false) ∧
      maskedSource.get_image_array 1 1 0 = 0 :=
  ⟨rfl, by decide,
    C8_mask_all_false plainConfig maskedRaster maskedSource rfl (by decide) rfl 1 1 0⟩

/-- Witness for claim C9: a window far outside the 2 by 2 raster reads zero. -/
theorem C9_outside_witness :
    plainConfig.build nonGeoRaster = Except.ok nonGeoSource ∧
      ((Box.mk 10 10 12 12).ymax ≤ 0 ∨
        (nonGeoRaster.height : Int) ≤ (Box.mk 10 10 12 12).ymin ∨
        (Box.mk 10 10 12 12).xmax ≤ 0 ∨
        (nonGeoRaster.width : Int) ≤ (Box.mk 10 10 12 12).xmin) ∧
      nonGeoSource.get_chip (Box.mk 10 10 12 12) 0 0 0 = 0 :=
  ⟨rfl, by decide,
    C9_outside_window_zero_fill plainConfig nonGeoRaster nonGeoSource rfl rfl rfl rfl
      (Box.mk 10 10 12 12) (by decide) 0 0 0 (by decide) (by decide)⟩

/-- Witness for claim C6: row 7 of the vacated last column reads zero. -/
theorem C6_shift_x_witness : shiftXSource.get_image_array 7 255 0 = 0 :=
  C6_shift_x.2.1 7 (by decide)

/-- Witness for claim C10: column 9 of the vacated first row reads zero. -/
theorem C10_shift_y_witness : shiftYSource.get_image_array 0 9 0 = 0 :=
  C10_shift_y.2.1 9 (by decide)

end RasterVision
